import Mathlib

/-!
Verification of the debug-adapter core in src/src/GdbServer.cc.

The development is a shallow embedding of that translation unit. External
collaborators (the replay engine, the task primitive, the gdb wire protocol,
the byte-code expression interpreter) appear as abstract function fields of an
environment or of the state records, exactly at the interface points where the
source calls them. All control flow of the embedded functions is translated
from the source. Request-consuming loops take the stream of incoming client
requests as an explicit list; the single loop whose iteration count is not
bounded by that list (process_debugger_requests) takes an explicit fuel
argument that callers instantiate with a bound derived from the list length.

Explicit checkpoint marks are modelled as fresh tokens: every call of
timeline.add_explicit_checkpoint mints a fresh token and registers it in the
multiset of live explicit checkpoints; remove_explicit_checkpoint erases one
occurrence. This reflects the source-level resource discipline that every
mark returned by add_explicit_checkpoint must be released by exactly one
remove_explicit_checkpoint.
-/

set_option linter.unusedVariables false

namespace RRGdb

/-! ### Constants from the source -/

def DBG_COMMAND_MAGIC_ADDRESS : Nat := 29298

def DBG_COMMAND_MSG_MASK : Nat := 0xFF000000

def DBG_COMMAND_MSG_CREATE_CHECKPOINT : Nat := 0x01000000

def DBG_COMMAND_MSG_DELETE_CHECKPOINT : Nat := 0x02000000

def DBG_COMMAND_PARAMETER_MASK : Nat := 0x00FFFFFF

def DBG_WHEN_MAGIC_ADDRESS : Nat := DBG_COMMAND_MAGIC_ADDRESS + 4

def SIGTRAP : Nat := 5

def SIGKILL : Nat := 9

/-- Register numbers from the external GdbRegister header (DREG_ORIG_EAX and
DREG_ORIG_RAX). Only their identities matter to the embedded code. -/
def DREG_ORIG_EAX : Nat := 41

def DREG_ORIG_RAX : Nat := 57

/-! ### Basic inductive types -/

inductive Arch
  | x86
  | x86_64
  | otherArch
deriving DecidableEq, Repr

inductive WatchKind
  | watchExec
  | watchWrite
  | watchReadwrite
deriving DecidableEq, Repr

inductive RunDir
  | forward
  | backward
deriving DecidableEq, Repr

inductive RunCmd
  | runContinue
  | runSinglestep
deriving DecidableEq, Repr

inductive ActionKind
  | actionStep
  | actionContinue
deriving DecidableEq, Repr

inductive RestartKind
  | fromCheckpoint
  | fromPrevious
  | fromEvent
deriving DecidableEq, Repr

inductive ReportState
  | reportNormal
  | threadsDead
deriving DecidableEq, Repr

structure GdbThreadId where
  pid : Int
  tid : Int
deriving DecidableEq, Repr

structure GdbContAction where
  kind : ActionKind
  target : GdbThreadId
  signalToDeliver : Nat
deriving DecidableEq, Repr

/-- The debugger requests dispatched by GdbServer.cc. Each targeted request
carries the GdbThreadId from the wire request (req.target). The cont
constructor is the resume request; its suppress flag models
req.suppress_debugger_stop. -/
inductive GdbRequest
  | noneReq
  | restartReq (kind : RestartKind) (param : Nat) (paramStr : String)
  | getCurrentThread
  | getOffsets
  | getThreadList
  | interrupt
  | detach
  | getIsThreadAlive (target : GdbThreadId)
  | getThreadExtraInfo (target : GdbThreadId)
  | setContinueThread (target : GdbThreadId)
  | setQueryThread (target : GdbThreadId)
  | getAuxv (target : GdbThreadId)
  | getMem (target : GdbThreadId) (addr : Nat) (len : Nat)
  | setMem (target : GdbThreadId) (addr : Nat) (data : List Nat)
  | getReg (target : GdbThreadId) (name : Nat)
  | getRegs (target : GdbThreadId)
  | setReg (target : GdbThreadId) (name : Nat) (value : List Nat) (defined : Bool)
  | getStopReason (target : GdbThreadId)
  | setSwBreak (target : GdbThreadId) (addr : Nat) (kind : Nat) (conditions : List (List Nat))
  | setHwBreak (target : GdbThreadId) (addr : Nat) (kind : Nat) (conditions : List (List Nat))
  | setRdWatch (target : GdbThreadId) (addr : Nat) (kind : Nat) (conditions : List (List Nat))
  | setWrWatch (target : GdbThreadId) (addr : Nat) (kind : Nat) (conditions : List (List Nat))
  | setRdwrWatch (target : GdbThreadId) (addr : Nat) (kind : Nat) (conditions : List (List Nat))
  | removeSwBreak (target : GdbThreadId) (addr : Nat) (kind : Nat)
  | removeHwBreak (target : GdbThreadId) (addr : Nat) (kind : Nat)
  | removeRdWatch (target : GdbThreadId) (addr : Nat) (kind : Nat)
  | removeWrWatch (target : GdbThreadId) (addr : Nat) (kind : Nat)
  | removeRdwrWatch (target : GdbThreadId) (addr : Nat) (kind : Nat)
  | readSiginfo (target : GdbThreadId) (len : Nat)
  | writeSiginfo (target : GdbThreadId)
  | cont (dir : RunDir) (actions : List GdbContAction) (suppressDebuggerStop : Bool)
deriving DecidableEq, Repr

/-- req.is_resume_request(): the request is a vCont resume. -/
def GdbRequest.isResumeRequest : GdbRequest → Bool
  | .cont _ _ _ => true
  | _ => false

/-- The wire target (req.target) of a request; zero for untargeted requests. -/
def GdbRequest.targetOf : GdbRequest → GdbThreadId
  | .getIsThreadAlive tg => tg
  | .getThreadExtraInfo tg => tg
  | .setContinueThread tg => tg
  | .setQueryThread tg => tg
  | .getAuxv tg => tg
  | .getMem tg _ _ => tg
  | .setMem tg _ _ => tg
  | .getReg tg _ => tg
  | .getRegs tg => tg
  | .setReg tg _ _ _ => tg
  | .getStopReason tg => tg
  | .setSwBreak tg _ _ _ => tg
  | .setHwBreak tg _ _ _ => tg
  | .setRdWatch tg _ _ _ => tg
  | .setWrWatch tg _ _ _ => tg
  | .setRdwrWatch tg _ _ _ => tg
  | .removeSwBreak tg _ _ => tg
  | .removeHwBreak tg _ _ => tg
  | .removeRdWatch tg _ _ => tg
  | .removeWrWatch tg _ _ => tg
  | .removeRdwrWatch tg _ _ => tg
  | .readSiginfo tg _ => tg
  | .writeSiginfo tg => tg
  | _ => ⟨0, 0⟩

/-- req.suppress_debugger_stop = false, performed right after every
dbg->get_request() in the source. -/
def clearSuppress : GdbRequest → GdbRequest
  | .cont dir actions _ => .cont dir actions false
  | r => r

/-- One register value as replied to the client: name, bytes, defined flag.
If defined is false the contents are semantically empty. -/
structure GdbRegisterValue where
  name : Nat
  value : List Nat
  defined : Bool
deriving DecidableEq, Repr

/-- Everything the adapter sends to the client: replies and notifications,
in emission order. -/
inductive Reply
  | getCurrentThread (pid tid : Int)
  | getOffsets
  | getThreadList (tids : List (Int × Int))
  | notifyStop (pid tid : Int) (sig : Int) (watchAddr : Nat)
  | getIsThreadAlive (alive : Bool)
  | getThreadExtraInfo (name : String)
  | selectThread (ok : Bool)
  | noSuchThread
  | getAuxv (pairs : List (Nat × Nat))
  | getMem (bytes : List Nat)
  | setMem (ok : Bool)
  | getReg (reg : GdbRegisterValue)
  | getRegs (file : List GdbRegisterValue)
  | setReg (ok : Bool)
  | getStopReason (pid tid : Int) (sig : Nat)
  | watchpointRequest (ok : Bool)
  | readSiginfo (bytes : List Nat)
  | writeSiginfo
  | detachReply
  | notifyExitCode (code : Nat)
  | notifyRestartFailed
deriving DecidableEq, Repr

/-! ### Tasks and sessions -/

/-- The external Task primitive, as seen through the members GdbServer.cc
reads and writes. Registers are a partial map from register number to byte
contents (read_register with its defined flag); memory is a partial map from
address to byte (read_bytes_fallible stops at the first unreadable byte).
vmReplaceBp is the address-space service
replace_breakpoints_with_original_values. -/
structure TaskState where
  tgid : Int
  recTid : Int
  realTgid : Int
  name : String
  arch : Arch
  regs : Nat → Option (List Nat)
  extraRegs : Nat → Option (List Nat)
  totalRegisters : Nat
  childSig : Nat
  mem : Nat → Option Nat
  vmBreakpoints : List Nat
  vmWatchpoints : List (Nat × Nat × WatchKind)
  vmReplaceBp : List Nat → Nat → List Nat
  taskGroupSize : Nat
  tguid : Int
  execed : Bool

/-- A session snapshot: replay session, diversion session, or other. sid
models object identity (the source compares session pointers). -/
structure Session where
  sid : Nat
  isDiversion : Bool
  isReplay : Bool
  canValidate : Bool
  currentFrameTime : Nat
  currentTaskTid : Option Int
  tasks : List (Int × TaskState)

def lookupTask : List (Int × TaskState) → Int → Option TaskState
  | [], _ => none
  | (k, ts) :: rest, tid => if k = tid then some ts else lookupTask rest tid

def Session.findTask (s : Session) (tid : Int) : Option TaskState :=
  lookupTask s.tasks tid

def updateTaskList : List (Int × TaskState) → Int → TaskState → List (Int × TaskState)
  | [], _, _ => []
  | (k, ts) :: rest, tid, ts2 =>
    if k = tid then (k, ts2) :: rest else (k, ts) :: updateTaskList rest tid ts2

def Session.setTask (s : Session) (tid : Int) (ts : TaskState) : Session :=
  { s with tasks := updateTaskList s.tasks tid ts }

/-! ### Break status and timeline -/

/-- BreakStatus as consumed by maybe_notify_stop: the reason a step stopped,
together with the member data of break_status.task that the source reads
(threadid, task-group size, task-group uid). signal = 0 means no signal. -/
structure BreakStatus where
  watchpointsHit : List Nat
  breakpointHit : Bool
  singlestepComplete : Bool
  signal : Nat
  taskExit : Bool
  taskPid : Int
  taskTid : Int
  taskGroupSize : Nat
  taskTguid : Int
deriving DecidableEq, Repr

/-- The replay timeline as seen through the operations GdbServer.cc invokes.
Marks are Nat tokens. currentPoint is the mark for the current execution
point (timeline.mark(); seek_to_mark sets it). liveExplicit is the multiset
of live explicit-checkpoint tokens; addExplicitCheckpoint mints nextMarkId.
prevCache is lazy_reverse_singlestep: the cached immediately-preceding mark,
when the timeline happens to have one. markRegs and markExtraRegs expose the
registers stored in a mark. -/
structure Timeline where
  currentPoint : Nat
  nextMarkId : Nat
  liveExplicit : List Nat
  canAdd : Bool
  breakpoints : List (Nat × Option (List (List Nat)))
  watchpoints : List (Nat × Nat × WatchKind × Option (List (List Nat)))
  isRunning : Bool
  prevCache : Nat → Int → Option Nat
  markRegs : Nat → Nat → Option (List Nat)
  markExtraRegs : Nat → Nat → Option (List Nat)
  markTotalRegs : Nat → Nat

/-- timeline.add_explicit_checkpoint(): returns the new mark and the updated
timeline. -/
def addExplicitCheckpoint (tl : Timeline) : Nat × Timeline :=
  (tl.nextMarkId,
   { tl with liveExplicit := tl.nextMarkId :: tl.liveExplicit,
             nextMarkId := tl.nextMarkId + 1 })

/-- timeline.remove_explicit_checkpoint(m): releases one live occurrence. -/
def removeExplicitCheckpoint (tl : Timeline) (m : Nat) : Timeline :=
  { tl with liveExplicit := tl.liveExplicit.erase m }

/-- timeline.seek_to_mark(m). -/
def seekToMark (tl : Timeline) (m : Nat) : Timeline :=
  { tl with currentPoint := m }

def timelineAddBreakpoint (tl : Timeline) (addr : Nat)
    (cond : Option (List (List Nat))) : Timeline :=
  { tl with breakpoints := (addr, cond) :: tl.breakpoints }

def timelineRemoveBreakpoint (tl : Timeline) (addr : Nat) : Timeline :=
  { tl with breakpoints := tl.breakpoints.filter (fun p => p.1 != addr) }

def timelineAddWatchpoint (tl : Timeline) (addr : Nat) (kind : Nat) (w : WatchKind)
    (cond : Option (List (List Nat))) : Timeline :=
  { tl with watchpoints := (addr, kind, w, cond) :: tl.watchpoints }

def timelineRemoveWatchpoint (tl : Timeline) (addr : Nat) (kind : Nat) (w : WatchKind) :
    Timeline :=
  { tl with watchpoints :=
      tl.watchpoints.filter (fun p => !(p.1 = addr ∧ p.2.1 = kind ∧ p.2.2.1 = w)) }

/-- timeline.remove_breakpoints_and_watchpoints(). -/
def timelineRemoveAllBps (tl : Timeline) : Timeline :=
  { tl with breakpoints := [], watchpoints := [] }

/-! ### The adapter state -/

/-- The per-index checkpoint table (std::map<int, Mark>): a key-unique
association list. cpInsert is operator[] assignment (replace in place). -/
def cpFind : List (Nat × Nat) → Nat → Option Nat
  | [], _ => none
  | (k, m) :: rest, i => if k = i then some m else cpFind rest i

def cpInsert : List (Nat × Nat) → Nat → Nat → List (Nat × Nat)
  | [], i, m => [(i, m)]
  | (k, m0) :: rest, i, m =>
    if k = i then (i, m) :: rest else (k, m0) :: cpInsert rest i m

def cpErase : List (Nat × Nat) → Nat → List (Nat × Nat)
  | [], _ => []
  | (k, m0) :: rest, i => if k = i then rest else (k, m0) :: cpErase rest i

/-- The GdbServer member state that the embedded functions read and write:
the timeline, the canonical (timeline) session, the checkpoint table,
debugger_restart_mark, debuggee_tguid and the execution target. -/
structure ServerCore where
  timeline : Timeline
  tlSession : Session
  checkpoints : List (Nat × Nat)
  debuggerRestartMark : Option Nat
  debuggeeTguid : Int
  targetEvent : Nat
  targetPid : Int
  targetRequireExec : Bool
  stopReplayingToTarget : Bool

/-- Result of DiversionSession::diversion_step. -/
structure DiversionResult where
  exited : Bool
  breakStatus : BreakStatus
  sess : Session

/-- The external collaborators: client features, the byte-code expression
interpreter, /proc auxv reads, architecture constants, and the replay-engine
operations whose internals live outside this translation unit. -/
structure Env where
  reverseExecution : Bool
  exprEval : List Nat → Int → Option Int
  auxvRead : Int → Option (List (Nat × Nat))
  breakpointInsnSize : Nat
  addBreakpointOk : Nat → Bool
  addWatchpointOk : Nat → Nat → WatchKind → Bool
  traceInstructionsUpToEvent : Nat → Bool
  diversionStep : Session → Int → RunCmd → Nat → DiversionResult
  applyBreakpointsAndWatchpoints : Timeline → Timeline
  seekToBeforeEvent : Timeline → Nat → Timeline
  replayStep : ServerCore → RunCmd → RunDir → Nat → (ServerCore × Bool × BreakStatus)
  replayFuel : Nat

/-! ### Little-endian encoding helpers (memcpy of integers on x86) -/

def natToLE : Nat → Nat → List Nat
  | 0, _ => []
  | n + 1, w => (w % 256) :: natToLE n (w / 256)

/-- The 8 bytes memcpy writes for an int64 value on a little-endian machine:
the low bytes of the two's-complement representation. -/
def toLE64 (v : Int) : List Nat :=
  natToLE 8 (v % ((2 : Int) ^ 64)).toNat

def leBytesToNat : List Nat → Nat
  | [] => 0
  | b :: rest => b % 256 + 256 * leBytesToNat rest

/-- Decode 8 little-endian bytes as a signed two's-complement 64-bit value. -/
def decodeInt64LE (bs : List Nat) : Int :=
  if leBytesToNat bs < 2 ^ 63 then (leBytesToNat bs : Int)
  else (leBytesToNat bs : Int) - 2 ^ 64

/-- The uint32 that memcpy reads from the first 4 data bytes of a set_mem
request (little-endian machine). -/
def decodeLE32 (data : List Nat) : Nat :=
  match data with
  | [b0, b1, b2, b3] =>
    b0 % 256 + 256 * (b1 % 256) + 65536 * (b2 % 256) + 16777216 * (b3 % 256)
  | _ => 0

/-! ### Magic channel -/

/-- GdbServer::maybe_process_magic_command. Returns none where the source
returns false (the request is not handled by the magic channel); otherwise
the updated state and the reply sent. -/
def maybeProcessMagicCommand (srv : ServerCore) (addr : Nat) (data : List Nat) :
    Option (ServerCore × Reply) :=
  if ¬(addr = DBG_COMMAND_MAGIC_ADDRESS ∧ data.length = 4) then
    none
  else
    let cmd := decodeLE32 data
    let param := cmd &&& DBG_COMMAND_PARAMETER_MASK
    if cmd &&& DBG_COMMAND_MSG_MASK = DBG_COMMAND_MSG_CREATE_CHECKPOINT then
      let srv2 :=
        if srv.timeline.canAdd then
          let r := addExplicitCheckpoint srv.timeline
          { srv with timeline := r.2, checkpoints := cpInsert srv.checkpoints param r.1 }
        else srv
      some (srv2, Reply.setMem true)
    else if cmd &&& DBG_COMMAND_MSG_MASK = DBG_COMMAND_MSG_DELETE_CHECKPOINT then
      let srv2 :=
        match cpFind srv.checkpoints param with
        | some m =>
          { srv with timeline := removeExplicitCheckpoint srv.timeline m,
                     checkpoints := cpErase srv.checkpoints param }
        | none => srv
      some (srv2, Reply.setMem true)
    else
      none

/-- GdbServer::maybe_process_magic_read. sess is the session owning the
target task (t->session()). -/
def maybeProcessMagicRead (sess : Session) (addr len : Nat) : Option Reply :=
  if addr = DBG_WHEN_MAGIC_ADDRESS ∧ len = 8 then
    let when : Int := if sess.isReplay then (sess.currentFrameTime : Int) else -1
    some (Reply.getMem (toLE64 when))
  else
    none

/-! ### Breakpoint conditions -/

/-- GdbBreakpointCondition::evaluate: walk the byte-code programs in order;
break if evaluation fails (evalFn returns none) or the result is nonzero. -/
def gdbBreakpointConditionEvaluate (evalFn : List Nat → Option Int) :
    List (List Nat) → Bool
  | [] => false
  | e :: rest =>
    match evalFn e with
    | none => true
    | some v => if v ≠ 0 then true else gdbBreakpointConditionEvaluate evalFn rest

/-- breakpoint_condition(request): no condition object at all when the
request carries no byte-code programs. -/
def breakpointCondition (conditions : List (List Nat)) : Option (List (List Nat)) :=
  if conditions.isEmpty then none else some conditions

/-- Modelled from the spec: the timeline honors an attached condition via
BreakpointCondition::evaluate and treats the absence of a condition object as
"always break" (spec section 3, BreakpointCondition contract). The timeline
internals are outside this translation unit. -/
def shouldBreak (evalFn : List Nat → Option Int) :
    Option (List (List Nat)) → Bool
  | none => true
  | some conds => gdbBreakpointConditionEvaluate evalFn conds

/-! ### Registers -/

/-- The static get_reg helper plus GdbServer::get_reg: try the general
registers, then the extra registers; undefined if neither knows the name. -/
def getRegValue (regs extraRegs : Nat → Option (List Nat)) (which : Nat) :
    GdbRegisterValue :=
  match regs which with
  | some v => ⟨which, v, true⟩
  | none =>
    match extraRegs which with
    | some v => ⟨which, v, true⟩
    | none => ⟨which, [], false⟩

/-- GdbServer::dispatch_regs_request builds the full register file. -/
def regFile (regs extraRegs : Nat → Option (List Nat)) (total : Nat) :
    List GdbRegisterValue :=
  (List.range total).map (getRegValue regs extraRegs)

/-! ### Thread ids -/

def getThreadid (t : TaskState) : GdbThreadId :=
  ⟨t.tgid, t.recTid⟩

/-- matches_threadid: wildcard (non-positive) pid and tid components match
anything. -/
def matchesThreadid (t : TaskState) (target : GdbThreadId) : Bool :=
  (decide (target.pid ≤ 0) || decide (target.pid = t.tgid)) &&
  (decide (target.tid ≤ 0) || decide (target.tid = t.recTid))

/-! ### Stop reporter -/

/-- is_last_thread_exit: the break is a task exit and the task group of the
exiting task has exactly one member. -/
def isLastThreadExit (bs : BreakStatus) : Bool :=
  bs.taskExit && bs.taskGroupSize == 1

/-- GdbServer::maybe_notify_stop: select the signal (later clauses override
earlier), then notify iff one was selected. -/
def maybeNotifyStop (reverseExecution : Bool) (bs : BreakStatus) : Option Reply :=
  let p0 : Int × Nat :=
    match bs.watchpointsHit with
    | [] => (-1, 0)
    | a :: _ => ((SIGTRAP : Int), a)
  let p1 : Int × Nat :=
    if bs.breakpointHit || bs.singlestepComplete then ((SIGTRAP : Int), p0.2) else p0
  let p2 : Int × Nat :=
    if bs.signal ≠ 0 then ((bs.signal : Int), p1.2) else p1
  let p3 : Int × Nat :=
    if isLastThreadExit bs && reverseExecution then ((SIGKILL : Int), p2.2) else p2
  if p3.1 ≥ 0 then some (Reply.notifyStop bs.taskPid bs.taskTid p3.1 p3.2) else none

/-- compute_run_command_from_actions: first action whose target matches runs;
if none matches, the task runs anyway with RUN_CONTINUE and no signal. -/
def computeRunCommand (t : TaskState) : List GdbContAction → RunCmd × Nat
  | [] => (RunCmd.runContinue, 0)
  | a :: rest =>
    if matchesThreadid t a.target then
      (if a.kind = ActionKind.actionStep then RunCmd.runSinglestep else RunCmd.runContinue,
       a.signalToDeliver)
    else
      computeRunCommand t rest

/-- watchpoint_type: the 4 watch request families map onto 3 hardware watch
types; read-only watches widen to read-write. none models the FATAL default
branch. -/
def watchpointType : GdbRequest → Option WatchKind
  | .setHwBreak _ _ _ _ => some WatchKind.watchExec
  | .removeHwBreak _ _ _ => some WatchKind.watchExec
  | .setWrWatch _ _ _ _ => some WatchKind.watchWrite
  | .removeWrWatch _ _ _ => some WatchKind.watchWrite
  | .setRdwrWatch _ _ _ _ => some WatchKind.watchReadwrite
  | .removeRdwrWatch _ _ _ => some WatchKind.watchReadwrite
  | .setRdWatch _ _ _ _ => some WatchKind.watchReadwrite
  | .removeRdWatch _ _ _ => some WatchKind.watchReadwrite
  | _ => none

/-! ### Memory access helpers -/

/-- read_bytes_fallible: reads stop at the first unreadable byte, the reply
is truncated to the bytes actually read. -/
def readBytesFallible (mem : Nat → Option Nat) (addr : Nat) : Nat → List Nat
  | 0 => []
  | n + 1 =>
    match mem addr with
    | none => []
    | some b => b :: readBytesFallible mem (addr + 1) n

/-- write_bytes_helper. -/
def writeBytes (mem : Nat → Option Nat) (addr : Nat) : List Nat → (Nat → Option Nat)
  | [] => mem
  | b :: rest => writeBytes (fun a => if a = addr then some b else mem a) (addr + 1) rest

/-! ### Request dispatcher

dispatch_debugger_request. The source is three consecutive switch statements
separated by fall-throughs: requests needing no target, requests for which a
null target is fine, and requests needing a live target (with a
notify_no_such_thread guard in between). Faithfully split into three phases.
Faults model FATAL / ASSERT aborts and null-pointer dereferences. -/

inductive DispatchResult
  | ok (srv : ServerCore) (sess : Session) (replies : List Reply)
  | fault (msg : String)

/-- Target resolution: resolve the wire tid in the session if positive, else
use the current task. -/
def resolveTarget (sess : Session) (tOpt : Option TaskState) (tg : GdbThreadId) :
    Option TaskState :=
  if tg.tid > 0 then sess.findTask tg.tid else tOpt

/-- First switch: requests that do not require a target task. none = fall
through to the next switch. -/
def dispatchPhase1 (srv : ServerCore) (sess : Session) (tOpt : Option TaskState)
    (req : GdbRequest) (state : ReportState) : Option DispatchResult :=
  match req with
  | .cont _ _ _ => some (.fault "assertion failed: not a resume request")
  | .restartReq _ _ _ => some (.fault "Cannot handle RESTART request from here")
  | .getCurrentThread =>
    match tOpt with
    | none => some (.fault "null task dereference")
    | some t => some (.ok srv sess [Reply.getCurrentThread t.tgid t.recTid])
  | .getOffsets => some (.ok srv sess [Reply.getOffsets])
  | .getThreadList =>
    let tids :=
      if state = ReportState.threadsDead then []
      else sess.tasks.map (fun kv => (kv.2.tgid, kv.2.recTid))
    some (.ok srv sess [Reply.getThreadList tids])
  | .interrupt =>
    match tOpt with
    | none => some (.fault "null task dereference")
    | some t => some (.ok srv sess [Reply.notifyStop t.tgid t.recTid 0 0])
  | _ => none

/-- Second switch: requests that query or manipulate which task is the
target; a missing target task is tolerated, except that the source
dereferences the resolved target unconditionally for thread_extra_info. -/
def dispatchPhase2 (srv : ServerCore) (sess : Session) (target : Option TaskState)
    (req : GdbRequest) : Option DispatchResult :=
  match req with
  | .getIsThreadAlive _ => some (.ok srv sess [Reply.getIsThreadAlive target.isSome])
  | .getThreadExtraInfo _ =>
    match target with
    | none => some (.fault "null target dereference in GET_THREAD_EXTRA_INFO")
    | some tgt => some (.ok srv sess [Reply.getThreadExtraInfo tgt.name])
  | .setContinueThread _ => some (.ok srv sess [Reply.selectThread target.isSome])
  | .setQueryThread _ => some (.ok srv sess [Reply.selectThread target.isSome])
  | _ => none

/-- Shared body of the four set-watchpoint arms (one case block in the
source). -/
def dispatchSetWatch (env : Env) (srv : ServerCore) (sess : Session)
    (req : GdbRequest) (addr kind : Nat) (conditions : List (List Nat))
    (tgt : TaskState) (w : WatchKind) : DispatchResult :=
  let ok := env.addWatchpointOk addr kind w
  let srv2 :=
    if ok then
      { srv with timeline :=
          timelineAddWatchpoint srv.timeline addr kind w (breakpointCondition conditions) }
    else srv
  let sess2 :=
    if ok ∧ sess.sid ≠ srv.tlSession.sid then
      sess.setTask tgt.recTid
        { tgt with vmWatchpoints := (addr, kind, w) :: tgt.vmWatchpoints }
    else sess
  .ok srv2 sess2 [Reply.watchpointRequest ok]

/-- Shared body of the four remove-watchpoint arms. -/
def dispatchRemoveWatch (srv : ServerCore) (sess : Session) (addr kind : Nat)
    (tgt : TaskState) (w : WatchKind) : DispatchResult :=
  let srv2 := { srv with timeline := timelineRemoveWatchpoint srv.timeline addr kind w }
  let sess2 :=
    if sess.sid ≠ srv.tlSession.sid then
      sess.setTask tgt.recTid
        { tgt with vmWatchpoints :=
            tgt.vmWatchpoints.filter (fun p => !(p.1 = addr ∧ p.2.1 = kind ∧ p.2.2 = w)) }
    else sess
  .ok srv2 sess2 [Reply.watchpointRequest true]

/-- Third switch: requests that require a valid target task tgt. tOpt is the
current task t (the source reads t->arch(), t->tuid() in some arms). -/
def dispatchPhase3 (env : Env) (srv : ServerCore) (sess : Session)
    (tOpt : Option TaskState) (tgt : TaskState) (req : GdbRequest) : DispatchResult :=
  match req with
  | .getAuxv _ =>
    match env.auxvRead tgt.realTgid with
    | none => .ok srv sess [Reply.getAuxv []]
    | some pairs => .ok srv sess [Reply.getAuxv (pairs.take 4096)]
  | .getMem _ addr len =>
    match maybeProcessMagicRead sess addr len with
    | some r => .ok srv sess [r]
    | none =>
      let bytes := readBytesFallible tgt.mem addr len
      .ok srv sess [Reply.getMem (tgt.vmReplaceBp bytes addr)]
  | .setMem _ addr data =>
    if data.length = 0 then .ok srv sess [Reply.setMem true]
    else
      match maybeProcessMagicCommand srv addr data with
      | some (srv2, r) => .ok srv2 sess [r]
      | none =>
        if ¬sess.isDiversion then
          .ok srv sess [Reply.setMem false]
        else
          let tgt2 := { tgt with mem := writeBytes tgt.mem addr data }
          .ok srv (sess.setTask tgt.recTid tgt2) [Reply.setMem true]
  | .getReg _ name =>
    .ok srv sess [Reply.getReg (getRegValue tgt.regs tgt.extraRegs name)]
  | .getRegs _ =>
    .ok srv sess [Reply.getRegs (regFile tgt.regs tgt.extraRegs tgt.totalRegisters)]
  | .setReg _ name value defined =>
    if ¬sess.isDiversion then
      match tOpt with
      | none => .fault "null task dereference"
      | some t =>
        if (t.arch = Arch.x86 ∧ name = DREG_ORIG_EAX) ∨
           (t.arch = Arch.x86_64 ∧ name = DREG_ORIG_RAX) then
          .ok srv sess [Reply.setReg true]
        else
          .ok srv sess [Reply.setReg false]
    else
      let tgt2 :=
        if defined then
          { tgt with regs := fun n => if n = name then some value else tgt.regs n }
        else tgt
      .ok srv (sess.setTask tgt.recTid tgt2) [Reply.setReg true]
  | .getStopReason _ =>
    .ok srv sess [Reply.getStopReason tgt.tgid tgt.recTid tgt.childSig]
  | .setSwBreak _ addr kind conditions =>
    if kind ≠ env.breakpointInsnSize then
      .fault "Debugger setting bad breakpoint insn"
    else
      match tOpt with
      | none => .fault "null task dereference"
      | some t =>
        let replayTask := srv.tlSession.findTask t.recTid
        let ok := env.addBreakpointOk addr
        let srv2 :=
          if ok then
            { srv with timeline :=
                timelineAddBreakpoint srv.timeline addr (breakpointCondition conditions) }
          else srv
        let sess2 :=
          if ok ∧ sess.sid ≠ srv.tlSession.sid then
            sess.setTask tgt.recTid
              { tgt with vmBreakpoints := addr :: tgt.vmBreakpoints }
          else sess
        .ok srv2 sess2 [Reply.watchpointRequest ok]
  | .setHwBreak _ addr kind conditions =>
    dispatchSetWatch env srv sess req addr kind conditions tgt WatchKind.watchExec
  | .setRdWatch _ addr kind conditions =>
    dispatchSetWatch env srv sess req addr kind conditions tgt WatchKind.watchReadwrite
  | .setWrWatch _ addr kind conditions =>
    dispatchSetWatch env srv sess req addr kind conditions tgt WatchKind.watchWrite
  | .setRdwrWatch _ addr kind conditions =>
    dispatchSetWatch env srv sess req addr kind conditions tgt WatchKind.watchReadwrite
  | .removeSwBreak _ addr _ =>
    let srv2 := { srv with timeline := timelineRemoveBreakpoint srv.timeline addr }
    let sess2 :=
      if sess.sid ≠ srv.tlSession.sid then
        sess.setTask tgt.recTid
          { tgt with vmBreakpoints := tgt.vmBreakpoints.erase addr }
      else sess
    .ok srv2 sess2 [Reply.watchpointRequest true]
  | .removeHwBreak _ addr kind =>
    dispatchRemoveWatch srv sess addr kind tgt WatchKind.watchExec
  | .removeRdWatch _ addr kind =>
    dispatchRemoveWatch srv sess addr kind tgt WatchKind.watchReadwrite
  | .removeWrWatch _ addr kind =>
    dispatchRemoveWatch srv sess addr kind tgt WatchKind.watchWrite
  | .removeRdwrWatch _ addr kind =>
    dispatchRemoveWatch srv sess addr kind tgt WatchKind.watchReadwrite
  | .readSiginfo _ _ =>
    .ok srv sess [Reply.readSiginfo []]
  | .writeSiginfo _ =>
    .ok srv sess [Reply.writeSiginfo]
  | _ => .fault "Unknown debugger request"

/-- GdbServer::dispatch_debugger_request. -/
def dispatchDebuggerRequest (env : Env) (srv : ServerCore) (sess : Session)
    (tOpt : Option TaskState) (req : GdbRequest) (state : ReportState) :
    DispatchResult :=
  match dispatchPhase1 srv sess tOpt req state with
  | some r => r
  | none =>
    let target := resolveTarget sess tOpt req.targetOf
    match dispatchPhase2 srv sess target req with
    | some r => r
    | none =>
      match target with
      | none => .ok srv sess [Reply.noSuchThread]
      | some tgt => dispatchPhase3 env srv sess tOpt tgt req

/-! ### Reverse-step fast path

try_lazy_reverse_singlesteps. The source is an outer while loop (guard: the
pending request is a single-thread no-signal backward singlestep on t with
the stop not suppressed) whose body performs one lazy reverse step and then
an inner loop draining get_regs requests; the first non-get_regs request
re-enters the outer guard. Here the two loops are fused into one recursion
on the request stream: lazyDrain is entered after at least one lazy step was
taken (the need_seek flag of the source is therefore true on every path that
reaches finishLazy, and false on the entry paths that never step). -/

structure LazyOut where
  req : GdbRequest
  rest : List GdbRequest
  replies : List Reply
  timeline : Timeline
  seeks : List Nat
  steps : Nat
  nowMark : Nat
  blocked : Bool

/-- The outer while guard: DREQ_CONT, backward, exactly one action, a
singlestep, no signal, target matches t, stop not suppressed. -/
def isLazySinglestepReq (t : TaskState) : GdbRequest → Bool
  | .cont RunDir.backward [a] suppress =>
    decide (a.kind = ActionKind.actionStep) && decide (a.signalToDeliver = 0) &&
    matchesThreadid t a.target && !suppress
  | _ => false

/-- The synthetic singlestep-complete BreakStatus built in the loop body,
passed to maybe_notify_stop. -/
def lazyBreakStatus (t : TaskState) : BreakStatus :=
  { watchpointsHit := [], breakpointHit := false, singlestepComplete := true,
    signal := 0, taskExit := false, taskPid := t.tgid, taskTid := t.recTid,
    taskGroupSize := t.taskGroupSize, taskTguid := t.tguid }

def isGetRegs : GdbRequest → Bool
  | .getRegs _ => true
  | _ => false

/-- The register file served from a stored mark (dispatch_regs_request on
now.regs() and now.extra_regs()). -/
def markRegsReply (tl : Timeline) (nowMark : Nat) : Reply :=
  Reply.getRegs
    (regFile (tl.markRegs nowMark) (tl.markExtraRegs nowMark) (tl.markTotalRegs nowMark))

/-- Exiting the fused loop after at least one lazy step: the pending seek to
the final mark is performed (timeline.seek_to_mark(now)). -/
def finishLazy (tl : Timeline) (nowMark : Nat) (steps : Nat) (acc : List Reply)
    (req : GdbRequest) (rest : List GdbRequest) : LazyOut :=
  { req := req, rest := rest, replies := acc, timeline := seekToMark tl nowMark,
    seeks := [nowMark], steps := steps, nowMark := nowMark, blocked := false }

/-- The fused drain/outer loop, entered after the first lazy reverse step
(notification already in acc, now = the mark stepped to). -/
def lazyDrain (env : Env) (t : TaskState) (tl : Timeline) (nowMark : Nat)
    (steps : Nat) (acc : List Reply) : List GdbRequest → LazyOut
  | [] =>
    { req := GdbRequest.noneReq, rest := [], replies := acc, timeline := tl,
      seeks := [], steps := steps, nowMark := nowMark, blocked := true }
  | r :: rest =>
    let req := clearSuppress r
    if isGetRegs req then
      lazyDrain env t tl nowMark steps (acc ++ [markRegsReply tl nowMark]) rest
    else if isLazySinglestepReq t req then
      match tl.prevCache nowMark t.recTid with
      | none => finishLazy tl nowMark steps acc req rest
      | some prev =>
        lazyDrain env t tl prev (steps + 1)
          (acc ++ (maybeNotifyStop env.reverseExecution (lazyBreakStatus t)).toList)
          rest
    else
      finishLazy tl nowMark steps acc req rest

/-- The result when no lazy step is taken at all: request and stream pass
through untouched and no seek happens. -/
def noLazyOut (tl : Timeline) (req : GdbRequest) (reqs : List GdbRequest) : LazyOut :=
  { req := req, rest := reqs, replies := [], timeline := tl, seeks := [],
    steps := 0, nowMark := tl.currentPoint, blocked := false }

/-- GdbServer::try_lazy_reverse_singlesteps. -/
def tryLazyReverseSinglesteps (env : Env) (t : TaskState) (tl : Timeline)
    (req : GdbRequest) (reqs : List GdbRequest) : LazyOut :=
  if isLazySinglestepReq t req then
    match tl.prevCache tl.currentPoint t.recTid with
    | none => noLazyOut tl req reqs
    | some prev =>
      lazyDrain env t tl prev 1
        ((maybeNotifyStop env.reverseExecution (lazyBreakStatus t)).toList) reqs
  else
    noLazyOut tl req reqs

/-! ### Diversion controller

divert together with diverter_process_debugger_requests, fused into one
recursion on the request stream: the inner request loop hands every resume
request with nonzero refcount to the outer divert loop body (backward stop,
diversion_step, exit handling, stop notification), which then continues the
inner loop; every other inner-loop case recurses directly. -/

inductive DivertOut
  | done (srv : ServerCore) (sess : Session) (req : GdbRequest)
         (rest : List GdbRequest) (replies : List Reply)
  | outOfInput (srv : ServerCore) (sess : Session) (replies : List Reply)
  | fault (msg : String)

def prependDivertReplies (reps : List Reply) : DivertOut → DivertOut
  | .done srv sess req rest replies => .done srv sess req rest (reps ++ replies)
  | .outOfInput srv sess replies => .outOfInput srv sess (reps ++ replies)
  | .fault msg => .fault msg

/-- Continue the diversion loop after a dispatch against the diversion
session: emit the replies and proceed, or propagate the FATAL. -/
def divertAfterDispatch (d : DispatchResult) (k : ServerCore → Session → DivertOut) :
    DivertOut :=
  match d with
  | .ok srv2 sess2 reps => prependDivertReplies reps (k srv2 sess2)
  | .fault msg => .fault msg

/-- The fused diversion loop. tTid is the diverter current task (updated by
set_query_thread); rc is diversion_refcount. Every DivertOut.done carries
the last request not handled by the diversion, to be processed by the
canonical session. -/
def divertRun (env : Env) (srv : ServerCore) (sess : Session) (tTid : Int)
    (rc : Nat) : List GdbRequest → DivertOut
  | [] => .outOfInput srv sess []
  | r :: rest =>
    let req := clearSuppress r
    match req with
    | .cont dir actions suppress =>
      if rc = 0 then
        .done srv sess req rest []
      else
        -- divert loop body for a resume executed inside the diversion
        (sess.findTask tTid).elim (DivertOut.fault "null task dereference") (fun t =>
          if dir = RunDir.backward then
            prependDivertReplies [Reply.notifyStop t.tgid t.recTid (SIGTRAP : Int) 0]
              (divertRun env srv sess tTid rc rest)
          else
            let ca := computeRunCommand t actions
            let dres := env.diversionStep sess tTid ca.1 ca.2
            if dres.exited then
              .done srv dres.sess GdbRequest.noneReq rest []
            else
              prependDivertReplies
                (maybeNotifyStop env.reverseExecution dres.breakStatus).toList
                (divertRun env srv dres.sess tTid rc rest))
    | .restartReq _ _ _ => .done srv sess req rest []
    | .detach => .done srv sess req rest []
    | .readSiginfo _ len =>
      prependDivertReplies [Reply.readSiginfo (List.replicate len 0)]
        (divertRun env srv sess tTid (rc + 1) rest)
    | .writeSiginfo _ =>
      if rc = 0 then .fault "assertion failed: diversion_refcount > 0"
      else
        prependDivertReplies [Reply.writeSiginfo]
          (divertRun env srv sess tTid (rc - 1) rest)
    | .setQueryThread tg =>
      -- possibly switch the diverter current task, then fall through to
      -- dispatch against the diversion session
      let tTid2 :=
        if tg.tid ≠ 0 ∧ (sess.findTask tg.tid).isSome then tg.tid else tTid
      divertAfterDispatch
        (dispatchDebuggerRequest env srv sess (sess.findTask tTid2) req
          ReportState.reportNormal)
        (fun srv2 sess2 => divertRun env srv2 sess2 tTid2 rc rest)
    | _ =>
      divertAfterDispatch
        (dispatchDebuggerRequest env srv sess (sess.findTask tTid) req
          ReportState.reportNormal)
        (fun srv2 sess2 => divertRun env srv2 sess2 tTid rc rest)

/-- ReplaySession::clone_diversion: a mutable sandbox forked from the replay
session; a distinct object from the timeline session. -/
def cloneDiversion (sess : Session) : Session :=
  { sess with sid := sess.sid + 1, isDiversion := true, isReplay := false }

/-- GdbServer::divert: apply pending breakpoint state if the timeline is
running, fork the diversion, and run its loop with refcount 1. -/
def divert (env : Env) (srv : ServerCore) (replaySess : Session) (taskTid : Int)
    (reqs : List GdbRequest) : DivertOut :=
  let srv2 :=
    if srv.timeline.isRunning then
      { srv with timeline := env.applyBreakpointsAndWatchpoints srv.timeline }
    else srv
  divertRun env srv2 (cloneDiversion replaySess) taskTid 1 reqs

/-! ### Restart handling -/

/-- GdbServer::at_target. -/
def atTarget (srv : ServerCore) : Bool :=
  if !srv.tlSession.canValidate then false
  else
    match srv.tlSession.currentTaskTid with
    | none => false
    | some tid =>
      match srv.tlSession.findTask tid with
      | none => false
      | some t =>
        if !srv.timeline.canAdd then false
        else if srv.stopReplayingToTarget then true
        else
          decide (srv.tlSession.currentFrameTime > srv.targetEvent) &&
          (decide (srv.targetPid = 0) || decide (t.tgid = srv.targetPid)) &&
          (!srv.targetRequireExec || t.execed)

/-- GdbServer::activate_debugger: take the explicit restart checkpoint and
freeze the current pid and event as the target. none models the null-task
dereference of the source when no current task exists. -/
def activateDebugger (srv : ServerCore) : Option ServerCore :=
  let eventNow := srv.tlSession.currentFrameTime
  match srv.tlSession.currentTaskTid.bind srv.tlSession.findTask with
  | none => none
  | some t =>
    let r := addExplicitCheckpoint srv.timeline
    some { srv with
             timeline := r.2, debuggerRestartMark := some r.1,
             targetPid := t.tgid, targetRequireExec := false,
             targetEvent := eventNow }

/-- The mark_to_restore block of restart_session: seek to the mark, release
the old debugger_restart_mark, adopt the mark as the new restart point, and
take a fresh explicit checkpoint if possible (its return value is
discarded). -/
def restoreMark (srv : ServerCore) (m : Nat) : ServerCore :=
  let tl1 := seekToMark srv.timeline m
  let tl2 :=
    match srv.debuggerRestartMark with
    | some old => removeExplicitCheckpoint tl1 old
    | none => tl1
  let srv2 := { srv with timeline := tl2, debuggerRestartMark := some m }
  if srv2.timeline.canAdd then
    { srv2 with timeline := (addExplicitCheckpoint srv2.timeline).2 }
  else srv2

/-- The do-while replay loop of the restart-from-event variant, driven by
the external replay engine. -/
def restartReplayLoop (env : Env) : Nat → ServerCore → ServerCore
  | 0, srv => srv
  | fuel + 1, srv =>
    let step := env.replayStep srv RunCmd.runContinue RunDir.forward srv.targetEvent
    if step.2.1 then
      -- REPLAY_EXITED: event not reached before end of trace
      { step.1 with timeline := env.seekToBeforeEvent step.1.timeline step.1.targetEvent }
    else if isLastThreadExit step.2.2 && decide (step.2.2.taskPid = step.1.targetPid) then
      step.1
    else if atTarget step.1 then
      step.1
    else
      restartReplayLoop env fuel step.1

inductive RestartOut
  | ok (srv : ServerCore) (replies : List Reply)
  | fault (msg : String)

/-- GdbServer::restart_session. -/
def restartSession (env : Env) (srv : ServerCore) (req : GdbRequest) : RestartOut :=
  match req with
  | .restartReq kind param paramStr =>
    let srv1 := { srv with timeline := timelineRemoveAllBps srv.timeline }
    match kind with
    | RestartKind.fromCheckpoint =>
      match cpFind srv1.checkpoints param with
      | none =>
        -- print the valid checkpoint list on stdout, notify restart failed
        .ok srv1 [Reply.notifyRestartFailed]
      | some m => .ok (restoreMark srv1 m) []
    | RestartKind.fromPrevious =>
      match srv1.debuggerRestartMark with
      | some m => .ok (restoreMark srv1 m) []
      | none => .fault "assertion failed: req.restart.type == RESTART_FROM_EVENT"
    | RestartKind.fromEvent =>
      let srv2 := { srv1 with stopReplayingToTarget := false, targetEvent := param }
      let srv3 := { srv2 with timeline := env.seekToBeforeEvent srv2.timeline param }
      let srv4 := restartReplayLoop env env.replayFuel srv3
      match activateDebugger srv4 with
      | some srv5 => .ok srv5 []
      | none => .fault "null task dereference in activate_debugger"
  | _ => .fault "assertion failed: req.type == DREQ_RESTART"

/-! ### process_debugger_requests and exit handling -/

inductive PDROut
  | returned (srv : ServerCore) (t : Option Int) (req : GdbRequest)
             (rest : List GdbRequest) (replies : List Reply)
  | outOfInput (srv : ServerCore) (replies : List Reply)
  | fault (msg : String)

def prependPDRReplies (reps : List Reply) : PDROut → PDROut
  | .returned srv t req rest replies => .returned srv t req rest (reps ++ replies)
  | .outOfInput srv replies => .outOfInput srv (reps ++ replies)
  | .fault msg => .fault msg

/-- maybe_singlestep_for_event: when instruction tracing is requested up to
the current event, rewrite a resume request into a suppressed singlestep of
the current task. -/
def maybeSinglestepForEvent (env : Env) (t : TaskState) (frameTime : Nat)
    (req : GdbRequest) : GdbRequest :=
  if env.traceInstructionsUpToEvent frameTime then
    GdbRequest.cont RunDir.forward
      [⟨ActionKind.actionStep, getThreadid t, 0⟩] true
  else req

/-- GdbServer::process_debugger_requests: reply to requests until a resume,
restart or detach request must be handled by the caller. Recursion is on an
explicit fuel (the source loop blocks on the client socket; callers pass
reqs.length + 1, which bounds the number of iterations because every
iteration consumes at least one request). tOpt is the current task by tuid,
refetched from the timeline session after the fast path ran. -/
def processDR (env : Env) : Nat → ServerCore → Option Int → ReportState →
    List GdbRequest → PDROut
  | 0, srv, _, _, _ => .outOfInput srv []
  | _ + 1, srv, _, _, [] => .outOfInput srv []
  | fuel + 1, srv, tOpt, state, r :: rest =>
    -- the tail of one iteration: return resume, restart and detach requests
    -- to the caller, dispatch everything else and loop
    let tail : ServerCore → Option Int → GdbRequest → List GdbRequest → PDROut :=
      fun srvT tT reqT restT =>
        match reqT with
        | .cont dir actions suppress =>
          match tT with
          | none => .fault "null task dereference"
          | some tid =>
            match srvT.tlSession.findTask tid with
            | none => .fault "null task dereference"
            | some t =>
              .returned srvT tT
                (maybeSinglestepForEvent env t srvT.tlSession.currentFrameTime reqT)
                restT []
        | .restartReq _ _ _ => .returned srvT tT reqT restT []
        | .detach => .returned srvT tT reqT restT [Reply.detachReply]
        | .noneReq =>
          -- a diversion that ended with no pending request: loop
          processDR env fuel srvT tT state restT
        | _ =>
          match dispatchDebuggerRequest env srvT srvT.tlSession
              (tT.bind srvT.tlSession.findTask) reqT state with
          | .ok srv2 sess2 reps =>
            prependPDRReplies reps
              (processDR env fuel { srv2 with tlSession := sess2 } tT state restT)
          | .fault msg => .fault msg
    let req0 := clearSuppress r
    -- try_lazy_reverse_singlesteps when the timeline is running and t exists
    let afterLazy : ServerCore × Option Int × GdbRequest × List GdbRequest ×
        List Reply × Bool :=
      match tOpt with
      | some tid =>
        if srv.timeline.isRunning then
          match srv.tlSession.findTask tid with
          | some t =>
            let lz := tryLazyReverseSinglesteps env t srv.timeline req0 rest
            let srv2 := { srv with timeline := lz.timeline }
            let t2 : Option Int :=
              if (srv2.tlSession.findTask tid).isSome then some tid else none
            (srv2, t2, lz.req, lz.rest, lz.replies, lz.blocked)
          | none => (srv, tOpt, req0, rest, [], false)
        else (srv, tOpt, req0, rest, [], false)
      | none => (srv, tOpt, req0, rest, [], false)
    let srv1 := afterLazy.1
    let t1 := afterLazy.2.1
    let req1 := afterLazy.2.2.1
    let rest1 := afterLazy.2.2.2.1
    let acc := afterLazy.2.2.2.2.1
    if afterLazy.2.2.2.2.2 then
      .outOfInput srv1 acc
    else
      match req1 with
      | .readSiginfo _ len =>
        -- reply a dummy zeroed siginfo, then fork and run the diversion
        let zeroReply := Reply.readSiginfo (List.replicate len 0)
        match t1 with
        | none => .fault "null task dereference"
        | some tid =>
          match srv1.tlSession.findTask tid with
          | none => .fault "null task dereference"
          | some t =>
            match divert env srv1 srv1.tlSession t.recTid rest1 with
            | .fault msg => .fault msg
            | .outOfInput srv2 _ reps =>
              .outOfInput srv2 (acc ++ [zeroReply] ++ reps)
            | .done srv2 _ req2 rest2 reps =>
              -- the diversion session is discarded; carry on with the
              -- request it did not handle
              prependPDRReplies (acc ++ [zeroReply] ++ reps) (tail srv2 t1 req2 rest2)
      | _ =>
        prependPDRReplies acc (tail srv1 t1 req1 rest1)

inductive ExitedOut
  | stopDebugging (srv : ServerCore) (replies : List Reply)
  | continueDebugging (srv : ServerCore) (replies : List Reply)
  | outOfInput (srv : ServerCore) (replies : List Reply)
  | fault (msg : String)

/-- GdbServer::handle_exited_state: notify the exit code, then process
requests with report_state = THREADS_DEAD; only detach (stop debugging)
and restart (continue debugging) are accepted, every other returned request
is fatal. -/
def handleExitedState (env : Env) (srv : ServerCore) (tOpt : Option Int)
    (reqs : List GdbRequest) : ExitedOut :=
  let exitReply := Reply.notifyExitCode 0
  match tOpt with
  | none =>
    .fault "Replay exited before we detected the death of the last debuggee thread"
  | some tid =>
    match processDR env (reqs.length + 1) srv (some tid) ReportState.threadsDead reqs with
    | .fault msg => .fault msg
    | .outOfInput srv2 reps => .outOfInput srv2 (exitReply :: reps)
    | .returned srv2 t2 req rest reps =>
      match req with
      | .restartReq kind param paramStr =>
        match restartSession env srv2 (GdbRequest.restartReq kind param paramStr) with
        | .ok srv3 reps2 => .continueDebugging srv3 (exitReply :: (reps ++ reps2))
        | .fault msg => .fault msg
      | .detach => .stopDebugging srv2 (exitReply :: reps)
      | _ => .fault "Received continue request after end-of-trace."

/-! ### Spec-side definitions for the stop reporter

claimStopSignal follows the words of the claim about the stop reporter: the
SIGKILL override fires only when the exiting task is the last thread of the
DEBUGGEE task group. specStopSignal follows the amended reading: the SIGKILL
override fires when the exiting task is the last thread of its OWN task
group, which is what is_last_thread_exit tests. Both are written in claim
order (first applicable override, scanning from the strongest). -/

def claimStopSignal (reverseExecution : Bool) (debuggeeTguid : Int)
    (bs : BreakStatus) : Option Int :=
  if (isLastThreadExit bs && decide (bs.taskTguid = debuggeeTguid)) && reverseExecution then
    some ((SIGKILL : Nat) : Int)
  else if bs.signal ≠ 0 then some ((bs.signal : Nat) : Int)
  else if bs.breakpointHit || bs.singlestepComplete then some ((SIGTRAP : Nat) : Int)
  else if !bs.watchpointsHit.isEmpty then some ((SIGTRAP : Nat) : Int)
  else none

def specStopSignal (reverseExecution : Bool) (bs : BreakStatus) : Option Int :=
  if isLastThreadExit bs && reverseExecution then some ((SIGKILL : Nat) : Int)
  else if bs.signal ≠ 0 then some ((bs.signal : Nat) : Int)
  else if bs.breakpointHit || bs.singlestepComplete then some ((SIGTRAP : Nat) : Int)
  else if !bs.watchpointsHit.isEmpty then some ((SIGTRAP : Nat) : Int)
  else none

def specWatchAddr (bs : BreakStatus) : Nat :=
  match bs.watchpointsHit with
  | [] => 0
  | a :: _ => a

/-- The amended stop reporter contract: notify iff a signal was selected,
with the watch address of the first watchpoint hit. -/
def specNotifyStop (reverseExecution : Bool) (bs : BreakStatus) : Option Reply :=
  match specStopSignal reverseExecution bs with
  | none => none
  | some s => some (Reply.notifyStop bs.taskPid bs.taskTid s (specWatchAddr bs))

/-! ### Concrete fixtures used by closed theorems and witnesses -/

def taskFix : TaskState :=
  { tgid := 10, recTid := 10, realTgid := 2000, name := "main", arch := Arch.x86_64,
    regs := fun n => if n = 0 then some [1, 0, 0, 0, 0, 0, 0, 0] else none,
    extraRegs := fun _ => none, totalRegisters := 1, childSig := 0,
    mem := fun a => if a < 1000000 then some (a % 256) else none,
    vmBreakpoints := [], vmWatchpoints := [],
    vmReplaceBp := fun bytes _ => bytes,
    taskGroupSize := 1, tguid := 10, execed := true }

def sessFix : Session :=
  { sid := 0, isDiversion := false, isReplay := true, canValidate := true,
    currentFrameTime := 50, currentTaskTid := some 10, tasks := [(10, taskFix)] }

def tlFix : Timeline :=
  { currentPoint := 100, nextMarkId := 8, liveExplicit := [3], canAdd := true,
    breakpoints := [], watchpoints := [], isRunning := false,
    prevCache := fun m _ => if m = 100 then some 99 else none,
    markRegs := fun _ n => if n = 0 then some [7, 0, 0, 0, 0, 0, 0, 0] else none,
    markExtraRegs := fun _ _ => none,
    markTotalRegs := fun _ => 1 }

def srvFix : ServerCore :=
  { timeline := tlFix, tlSession := sessFix, checkpoints := [(5, 3)],
    debuggerRestartMark := none, debuggeeTguid := 10, targetEvent := 50,
    targetPid := 10, targetRequireExec := false, stopReplayingToTarget := false }

def bsQuiet : BreakStatus :=
  { watchpointsHit := [], breakpointHit := false, singlestepComplete := false,
    signal := 0, taskExit := false, taskPid := 0, taskTid := 0,
    taskGroupSize := 0, taskTguid := 0 }

def envFix : Env :=
  { reverseExecution := true,
    exprEval := fun _ _ => some 0,
    auxvRead := fun _ => none,
    breakpointInsnSize := 1,
    addBreakpointOk := fun _ => true,
    addWatchpointOk := fun _ _ _ => true,
    traceInstructionsUpToEvent := fun _ => false,
    diversionStep := fun s _ _ _ => ⟨false, bsQuiet, s⟩,
    applyBreakpointsAndWatchpoints := fun tl => tl,
    seekToBeforeEvent := fun tl _ => tl,
    replayStep := fun srv _ _ _ => (srv, true, bsQuiet),
    replayFuel := 0 }

/-- A last-thread exit of a task group that is NOT the debuggee task group
(its tguid is 100), with no other break reason. -/
def bsLastExitOtherGroup : BreakStatus :=
  { watchpointsHit := [], breakpointHit := false, singlestepComplete := false,
    signal := 0, taskExit := true, taskPid := 10, taskTid := 10,
    taskGroupSize := 1, taskTguid := 100 }

/-! ### Claim theorems -/

theorem gdbEval_cons_none (evalFn : List Nat → Option Int) {e : List Nat}
    (rest : List (List Nat)) (he : evalFn e = none) :
    gdbBreakpointConditionEvaluate evalFn (e :: rest) = true := by
  rw [gdbBreakpointConditionEvaluate, he]

theorem gdbEval_cons_some (evalFn : List Nat → Option Int) {e : List Nat} {v : Int}
    (rest : List (List Nat)) (he : evalFn e = some v) :
    gdbBreakpointConditionEvaluate evalFn (e :: rest) =
      if v ≠ 0 then true else gdbBreakpointConditionEvaluate evalFn rest := by
  rw [gdbBreakpointConditionEvaluate, he]

/-- C7: for a breakpoint condition holding byte-code programs P, evaluation
returns true iff some program fails to evaluate or some program evaluates to
a nonzero integer, and false otherwise; an empty P attaches no condition
object at all, in which case the breakpoint always breaks. -/
theorem claim_C7_breakpoint_condition :
    (∀ (evalFn : List Nat → Option Int) (P : List (List Nat)),
      gdbBreakpointConditionEvaluate evalFn P = true ↔
        ∃ p, p ∈ P ∧ (evalFn p = none ∨ ∃ v, evalFn p = some v ∧ v ≠ 0)) ∧
    breakpointCondition [] = none ∧
    (∀ (evalFn : List Nat → Option Int),
      shouldBreak evalFn (breakpointCondition []) = true) ∧
    (∀ (p : List Nat) (ps : List (List Nat)),
      breakpointCondition (p :: ps) = some (p :: ps)) := by
  refine ⟨?_, rfl, fun _ => rfl, fun _ _ => rfl⟩
  intro evalFn P
  induction P with
  | nil => simp [gdbBreakpointConditionEvaluate]
  | cons e rest ih =>
    cases he : evalFn e with
    | none =>
      rw [gdbEval_cons_none evalFn rest he]
      simp only [true_iff]
      exact ⟨e, List.mem_cons_self e rest, Or.inl he⟩
    | some v =>
      rw [gdbEval_cons_some evalFn rest he]
      by_cases hv : v = 0
      · subst hv
        rw [if_neg (by simp)]
        rw [ih]
        constructor
        · rintro ⟨p, hp, h⟩
          exact ⟨p, List.mem_cons_of_mem _ hp, h⟩
        · rintro ⟨p, hp, h⟩
          rcases List.mem_cons.mp hp with rfl | hp2
          · rcases h with h | ⟨w, hw, hw0⟩
            · rw [he] at h; cases h
            · rw [he] at hw
              cases hw
              exact absurd rfl hw0
          · exact ⟨p, hp2, h⟩
      · rw [if_pos hv]
        simp only [true_iff]
        exact ⟨e, List.mem_cons_self e rest, Or.inr ⟨v, he, hv⟩⟩

/-- C3 is a code bug: creating a checkpoint at an index that already has an
entry overwrites the table slot with the fresh mark but never calls
remove_explicit_checkpoint on the old mark, so the old explicit mark (3
below) stays live while no table entry owns it any more — contradicting the
source doc comment, which says the existing checkpoint is deleted first.
Deleting an entry does release exactly one explicit mark (second conjunct).
The input [5, 0, 0, 1] is the little-endian encoding of command 0x01000005
(create checkpoint, index 5); [5, 0, 0, 2] encodes 0x02000005 (delete
checkpoint, index 5). -/
theorem claim_C3_checkpoint_overwrite_leaks_mark :
    (maybeProcessMagicCommand srvFix DBG_COMMAND_MAGIC_ADDRESS [5, 0, 0, 1]).map
        (fun p => (p.1.checkpoints, p.1.timeline.liveExplicit, p.2)) =
      some ([(5, 8)], [8, 3], Reply.setMem true) ∧
    (maybeProcessMagicCommand srvFix DBG_COMMAND_MAGIC_ADDRESS [5, 0, 0, 2]).map
        (fun p => (p.1.checkpoints, p.1.timeline.liveExplicit, p.2)) =
      some ([], [], Reply.setMem true) := by
  constructor <;> rfl

/-- C10 is a code bug: a thread_extra_info request whose target tid does not
resolve to a live task makes the dispatcher dereference the null resolved
target (target->name() in the source), although the source comment above
that switch says a missing task is fine there; when the target resolves, the
reply carries the task's name. -/
theorem claim_C10_thread_extra_info_null_deref :
    dispatchDebuggerRequest envFix srvFix sessFix (some taskFix)
        (GdbRequest.getThreadExtraInfo ⟨0, 7⟩) ReportState.reportNormal =
      DispatchResult.fault "null target dereference in GET_THREAD_EXTRA_INFO" ∧
    dispatchDebuggerRequest envFix srvFix sessFix (some taskFix)
        (GdbRequest.getThreadExtraInfo ⟨0, 10⟩) ReportState.reportNormal =
      DispatchResult.ok srvFix sessFix [Reply.getThreadExtraInfo "main"] := by
  constructor <;> rfl

/-- C5 counterexample: maybe_notify_stop tests that the exiting task is the
last thread of its OWN task group, not of the debuggee task group. For a
sole-thread exit in task group 100 while the debuggee task group is 200 and
reverse execution is advertised, the code notifies a SIGKILL stop, whereas
the claim selects no signal (so notification order claimed and implemented
differ at this input). -/
theorem claim_C5_counterexample :
    maybeNotifyStop true bsLastExitOtherGroup =
      some (Reply.notifyStop 10 10 9 0) ∧
    claimStopSignal true 200 bsLastExitOtherGroup = none := by
  constructor <;> rfl

/-- C5 amended: the stop reporter composes its overrides in the order
watchpoint (SIGTRAP, watch address of the first hit), breakpoint or
singlestep (SIGTRAP), delivered replay signal, and SIGKILL when the exiting
task is the last thread of its own task group and the client advertised
reverse execution; a stop notification is emitted iff a signal was
selected. -/
theorem claim_C5_stop_reporter_amended :
    ∀ (reverseExecution : Bool) (bs : BreakStatus),
      maybeNotifyStop reverseExecution bs = specNotifyStop reverseExecution bs := by
  intro rev bs
  rcases bs with ⟨watch, bp, ss, sig, texit, pid, tid, gsz, tguid⟩
  by_cases hsig : sig = 0 <;>
    cases watch <;> cases bp <;> cases ss <;> cases texit <;> cases rev <;>
      by_cases hg : gsz = 1 <;>
        simp_all [maybeNotifyStop, specNotifyStop, specStopSignal, specWatchAddr,
          isLastThreadExit, SIGTRAP, SIGKILL, Int.natCast_nonneg]

theorem leBytesToNat_natToLE :
    ∀ (n w : Nat), w < 256 ^ n → leBytesToNat (natToLE n w) = w := by
  intro n
  induction n with
  | zero =>
    intro w hw
    simp only [natToLE, leBytesToNat]
    omega
  | succ n ih =>
    intro w hw
    have hdiv : w / 256 < 256 ^ n := by
      have hp : (256 : Nat) ^ (n + 1) = 256 ^ n * 256 := pow_succ 256 n
      rw [hp] at hw
      omega
    rw [natToLE, leBytesToNat, ih (w / 256) hdiv]
    omega

theorem decodeInt64LE_toLE64_ofNat (t : Nat) (h : t < 2 ^ 63) :
    decodeInt64LE (toLE64 (t : Int)) = (t : Int) := by
  have hmod : ((t : Int) % (2 : Int) ^ 64) = (t : Int) := by
    apply Int.emod_eq_of_lt (Int.natCast_nonneg t)
    have h2 : (t : Int) < (2 : Int) ^ 63 := by exact_mod_cast h
    have h3 : ((2 : Int) ^ 63) < (2 : Int) ^ 64 := by norm_num
    omega
  have hlt : t < 256 ^ 8 := by
    have : (256 : Nat) ^ 8 = 2 ^ 64 := by norm_num
    have h4 : (2 : Nat) ^ 63 < 2 ^ 64 := by norm_num
    omega
  have henc : toLE64 (t : Int) = natToLE 8 t := by
    unfold toLE64
    rw [hmod, Int.toNat_natCast]
  rw [henc]
  unfold decodeInt64LE
  rw [leBytesToNat_natToLE 8 t hlt, if_pos h]

theorem maybeProcessMagicRead_miss (sess : Session) (addr len : Nat)
    (h : ¬(addr = DBG_WHEN_MAGIC_ADDRESS ∧ len = 8)) :
    maybeProcessMagicRead sess addr len = none := by
  unfold maybeProcessMagicRead
  rw [if_neg h]

/-- C8: an 8-byte read at WHEN_ADDR is answered with the current trace
frame's event number as a little-endian signed 64-bit integer when the
session is a replay session, and with -1 (eight 0xff bytes) otherwise; any
other size or address is not handled by the magic channel and the
dispatcher serves it from the normal memory path (fallible read plus
breakpoint overlay). -/
theorem claim_C8_when_magic_read :
    (∀ (sess : Session) (addr len : Nat),
      maybeProcessMagicRead sess addr len = none ↔
        ¬(addr = DBG_WHEN_MAGIC_ADDRESS ∧ len = 8)) ∧
    (∀ (sess : Session), sess.isReplay = true →
      maybeProcessMagicRead sess DBG_WHEN_MAGIC_ADDRESS 8 =
        some (Reply.getMem (toLE64 (sess.currentFrameTime : Int)))) ∧
    (∀ (t : Nat), t < 2 ^ 63 → decodeInt64LE (toLE64 (t : Int)) = (t : Int)) ∧
    (∀ (sess : Session), sess.isReplay = false →
      maybeProcessMagicRead sess DBG_WHEN_MAGIC_ADDRESS 8 =
        some (Reply.getMem (List.replicate 8 255))) ∧
    decodeInt64LE (List.replicate 8 255) = -1 ∧
    (∀ (env : Env) (srv : ServerCore) (sess : Session) (t tgt : TaskState)
       (tg : GdbThreadId) (addr len : Nat) (state : ReportState),
      ¬(addr = DBG_WHEN_MAGIC_ADDRESS ∧ len = 8) →
      resolveTarget sess (some t) tg = some tgt →
      dispatchDebuggerRequest env srv sess (some t)
          (GdbRequest.getMem tg addr len) state =
        DispatchResult.ok srv sess
          [Reply.getMem (tgt.vmReplaceBp (readBytesFallible tgt.mem addr len) addr)]) := by
  refine ⟨?_, ?_, ?_, ?_, by decide, ?_⟩
  · intro sess addr len
    by_cases h : addr = DBG_WHEN_MAGIC_ADDRESS ∧ len = 8
    · simp [maybeProcessMagicRead, h]
    · simp [maybeProcessMagicRead, h]
  · intro sess h
    unfold maybeProcessMagicRead
    rw [if_pos ⟨rfl, rfl⟩, h]
    simp
  · exact decodeInt64LE_toLE64_ofNat
  · intro sess h
    unfold maybeProcessMagicRead
    rw [if_pos ⟨rfl, rfl⟩, h]
    have hneg : toLE64 (-1) = List.replicate 8 255 := by decide
    simp [hneg]
  · intro env srv sess t tgt tg addr len state hnm hres
    simp only [dispatchDebuggerRequest, dispatchPhase1, dispatchPhase2,
      GdbRequest.targetOf, hres, dispatchPhase3,
      maybeProcessMagicRead_miss sess addr len hnm]

/-- C1: a set_mem request with nonempty data that the magic channel does not
handle, and a set_reg request outside the ORIG_EAX/ORIG_RAX special case,
dispatched while the session is not a diversion, leave the server state and
the session untouched and reply failure to the client. -/
theorem claim_C1_mutating_writes_rejected :
    (∀ (env : Env) (srv : ServerCore) (sess : Session) (t tgt : TaskState)
       (state : ReportState) (tg : GdbThreadId) (addr : Nat) (data : List Nat),
      sess.isDiversion = false →
      data ≠ [] →
      maybeProcessMagicCommand srv addr data = none →
      resolveTarget sess (some t) tg = some tgt →
      dispatchDebuggerRequest env srv sess (some t)
          (GdbRequest.setMem tg addr data) state =
        DispatchResult.ok srv sess [Reply.setMem false]) ∧
    (∀ (env : Env) (srv : ServerCore) (sess : Session) (t tgt : TaskState)
       (state : ReportState) (tg : GdbThreadId) (name : Nat) (value : List Nat)
       (defined : Bool),
      sess.isDiversion = false →
      ¬((t.arch = Arch.x86 ∧ name = DREG_ORIG_EAX) ∨
        (t.arch = Arch.x86_64 ∧ name = DREG_ORIG_RAX)) →
      resolveTarget sess (some t) tg = some tgt →
      dispatchDebuggerRequest env srv sess (some t)
          (GdbRequest.setReg tg name value defined) state =
        DispatchResult.ok srv sess [Reply.setReg false]) := by
  constructor
  · intro env srv sess t tgt state tg addr data hdiv hdata hmagic hres
    have hlen : ¬data.length = 0 := by
      simpa using hdata
    simp only [dispatchDebuggerRequest, dispatchPhase1, dispatchPhase2,
      GdbRequest.targetOf, hres, dispatchPhase3, if_neg hlen, hmagic, hdiv]
    simp
  · intro env srv sess t tgt state tg name value defined hdiv hreg hres
    simp only [dispatchDebuggerRequest, dispatchPhase1, dispatchPhase2,
      GdbRequest.targetOf, hres, dispatchPhase3, hdiv]
    simp [hreg]

theorem claim_C8_when_magic_read_witness :
    (sessFix.isReplay = true ∧
      maybeProcessMagicRead sessFix DBG_WHEN_MAGIC_ADDRESS 8 =
        some (Reply.getMem (toLE64 (sessFix.currentFrameTime : Int)))) ∧
    (¬(500 = DBG_WHEN_MAGIC_ADDRESS ∧ 3 = 8) ∧
      dispatchDebuggerRequest envFix srvFix sessFix (some taskFix)
          (GdbRequest.getMem ⟨0, 0⟩ 500 3) ReportState.reportNormal =
        DispatchResult.ok srvFix sessFix
          [Reply.getMem (taskFix.vmReplaceBp (readBytesFallible taskFix.mem 500 3) 500)]) :=
  ⟨⟨rfl, claim_C8_when_magic_read.2.1 sessFix rfl⟩,
   ⟨by decide,
    claim_C8_when_magic_read.2.2.2.2.2 envFix srvFix sessFix taskFix taskFix
      ⟨0, 0⟩ 500 3 ReportState.reportNormal (by decide) rfl⟩⟩

theorem claim_C1_mutating_writes_rejected_witness :
    (sessFix.isDiversion = false ∧ ([1, 2, 3] : List Nat) ≠ [] ∧
      maybeProcessMagicCommand srvFix 500 [1, 2, 3] = none ∧
      dispatchDebuggerRequest envFix srvFix sessFix (some taskFix)
          (GdbRequest.setMem ⟨0, 0⟩ 500 [1, 2, 3]) ReportState.reportNormal =
        DispatchResult.ok srvFix sessFix [Reply.setMem false]) ∧
    (¬((taskFix.arch = Arch.x86 ∧ 0 = DREG_ORIG_EAX) ∨
       (taskFix.arch = Arch.x86_64 ∧ 0 = DREG_ORIG_RAX)) ∧
      dispatchDebuggerRequest envFix srvFix sessFix (some taskFix)
          (GdbRequest.setReg ⟨0, 0⟩ 0 [9] true) ReportState.reportNormal =
        DispatchResult.ok srvFix sessFix [Reply.setReg false]) :=
  ⟨⟨rfl, by decide, rfl,
    claim_C1_mutating_writes_rejected.1 envFix srvFix sessFix taskFix taskFix
      ReportState.reportNormal ⟨0, 0⟩ 500 [1, 2, 3] rfl (by decide) rfl rfl⟩,
   ⟨by decide,
    claim_C1_mutating_writes_rejected.2 envFix srvFix sessFix taskFix taskFix
      ReportState.reportNormal ⟨0, 0⟩ 0 [9] true rfl (by decide) rfl⟩⟩

/-! ### C4: checkpoint mark ownership across restart -/

def srvC4 : ServerCore :=
  { srvFix with debuggerRestartMark := some 7,
                timeline := { tlFix with liveExplicit := [3, 7] } }

def restartOwnership : RestartOut → Option (Option Nat × List (Nat × Nat) × List Nat)
  | .ok srv _ => some (srv.debuggerRestartMark, srv.checkpoints, srv.timeline.liveExplicit)
  | .fault _ => none

/-- C4 counterexample: from a state where mark 3 is owned only by
checkpoints[5] and mark 7 only by debugger_restart_mark, a
restart-from-checkpoint 5 leaves mark 3 bound BOTH to the table entry and to
debugger_restart_mark (the result below shows checkpoints still [(5, 3)] and
debugger_restart_mark = some 3), refuting exclusive ownership; the fresh
explicit checkpoint 8 taken at the restored point is owned by neither. -/
theorem claim_C4_counterexample :
    restartOwnership (restartSession envFix srvC4
        (GdbRequest.restartReq RestartKind.fromCheckpoint 5 "5")) =
      some (some 3, [(5, 3)], [8, 3]) := by
  rfl

/-- C4 amended: on restart-from-checkpoint the old debugger_restart_mark is
released and the restored mark is adopted as the new restart point (taking a
fresh explicit checkpoint at that point if possible), but the adopted mark
stays bound to the checkpoint-table entry as well, so the restored mark has
two owners rather than exactly one. -/
theorem claim_C4_restart_mark_shared_amended :
    ∀ (env : Env) (srv : ServerCore) (param : Nat) (ps : String) (m old : Nat),
      cpFind srv.checkpoints param = some m →
      srv.debuggerRestartMark = some old →
      ∃ S,
        restartSession env srv
            (GdbRequest.restartReq RestartKind.fromCheckpoint param ps) =
          RestartOut.ok S [] ∧
        S.debuggerRestartMark = some m ∧
        S.checkpoints = srv.checkpoints ∧
        cpFind S.checkpoints param = some m ∧
        S.timeline.currentPoint = m ∧
        S.timeline.liveExplicit =
          (if srv.timeline.canAdd then [srv.timeline.nextMarkId] else []) ++
            srv.timeline.liveExplicit.erase old ∧
        S.timeline.breakpoints = [] ∧
        S.timeline.watchpoints = [] := by
  intro env srv param ps m old hfind hold
  refine ⟨restoreMark { srv with timeline := timelineRemoveAllBps srv.timeline } m,
    ?_, ?_⟩
  · simp only [restartSession, timelineRemoveAllBps]
    rw [show cpFind srv.checkpoints param = some m from hfind]
  · by_cases hc : srv.timeline.canAdd <;>
      simp [restoreMark, seekToMark, removeExplicitCheckpoint, addExplicitCheckpoint,
        timelineRemoveAllBps, hold, hfind, hc]

/-! ### C6: reverse-step fast path -/

theorem lazyNotifyEq (rev : Bool) (t : TaskState) :
    maybeNotifyStop rev (lazyBreakStatus t) =
      some (Reply.notifyStop t.tgid t.recTid 5 0) := rfl

theorem lazyDrain_getRegs_run :
    ∀ (k : Nat) (env : Env) (t : TaskState) (tl : Timeline) (nowMark steps : Nat)
      (acc : List Reply) (tg : GdbThreadId) (other : GdbRequest)
      (rest : List GdbRequest),
      isGetRegs (clearSuppress other) = false →
      isLazySinglestepReq t (clearSuppress other) = false →
      lazyDrain env t tl nowMark steps acc
          (List.replicate k (GdbRequest.getRegs tg) ++ other :: rest) =
        finishLazy tl nowMark steps
          (acc ++ List.replicate k (markRegsReply tl nowMark))
          (clearSuppress other) rest := by
  intro k
  induction k with
  | zero =>
    intro env t tl nowMark steps acc tg other rest h1 h2
    rw [List.replicate_zero, List.nil_append, lazyDrain]
    simp only [h1, h2, Bool.false_eq_true, if_false, List.replicate_zero,
      List.append_nil]
  | succ k ih =>
    intro env t tl nowMark steps acc tg other rest h1 h2
    rw [List.replicate_succ, List.cons_append, lazyDrain]
    have hg : isGetRegs (clearSuppress (GdbRequest.getRegs tg)) = true := rfl
    rw [hg]
    simp only [if_true]
    rw [ih env t tl nowMark steps (acc ++ [markRegsReply tl nowMark]) tg other rest h1 h2]
    rw [List.append_assoc]
    rw [show [markRegsReply tl nowMark] ++ List.replicate k (markRegsReply tl nowMark) =
      List.replicate (k + 1) (markRegsReply tl nowMark) from (List.replicate_succ _ _).symm]

theorem lazyDrain_steps_ge :
    ∀ (reqs : List GdbRequest) (env : Env) (t : TaskState) (tl : Timeline)
      (nowMark steps : Nat) (acc : List Reply),
      steps ≤ (lazyDrain env t tl nowMark steps acc reqs).steps := by
  intro reqs
  induction reqs with
  | nil => intro env t tl nowMark steps acc; exact Nat.le_refl steps
  | cons r rest ih =>
    intro env t tl nowMark steps acc
    rw [lazyDrain]
    by_cases h1 : isGetRegs (clearSuppress r)
    · rw [h1]
      simp only [if_true]
      exact ih env t tl nowMark steps (acc ++ [markRegsReply tl nowMark])
    · simp only [h1, Bool.false_eq_true, if_false]
      by_cases h2 : isLazySinglestepReq t (clearSuppress r)
      · rw [h2]
        simp only [if_true]
        cases hc : tl.prevCache nowMark t.recTid with
        | none => exact Nat.le_refl steps
        | some prev =>
          exact Nat.le_trans (Nat.le_succ steps)
            (ih env t tl prev (steps + 1)
              (acc ++ (maybeNotifyStop env.reverseExecution (lazyBreakStatus t)).toList))
      · simp only [h2, Bool.false_eq_true, if_false]
        exact Nat.le_refl steps

theorem lazyDrain_seek_done :
    ∀ (reqs : List GdbRequest) (env : Env) (t : TaskState) (tl : Timeline)
      (nowMark steps : Nat) (acc : List Reply),
      (lazyDrain env t tl nowMark steps acc reqs).blocked = false →
      (lazyDrain env t tl nowMark steps acc reqs).seeks =
        [(lazyDrain env t tl nowMark steps acc reqs).nowMark] ∧
      (lazyDrain env t tl nowMark steps acc reqs).timeline =
        seekToMark tl (lazyDrain env t tl nowMark steps acc reqs).nowMark := by
  intro reqs
  induction reqs with
  | nil =>
    intro env t tl nowMark steps acc hb
    cases hb
  | cons r rest ih =>
    intro env t tl nowMark steps acc hb
    rw [lazyDrain] at hb ⊢
    by_cases h1 : isGetRegs (clearSuppress r)
    · rw [h1] at hb ⊢
      simp only [if_true] at hb ⊢
      exact ih env t tl nowMark steps (acc ++ [markRegsReply tl nowMark]) hb
    · simp only [h1, Bool.false_eq_true, if_false] at hb ⊢
      by_cases h2 : isLazySinglestepReq t (clearSuppress r)
      · rw [h2] at hb ⊢
        simp only [if_true] at hb ⊢
        cases hc : tl.prevCache nowMark t.recTid with
        | none => exact ⟨rfl, rfl⟩
        | some prev =>
          rw [hc] at hb
          exact ih env t tl prev (steps + 1)
            (acc ++ (maybeNotifyStop env.reverseExecution (lazyBreakStatus t)).toList) hb
      · simp only [h2, Bool.false_eq_true, if_false] at hb ⊢
        exact ⟨rfl, rfl⟩

/-- C6: while the pending request is a single-thread no-signal backward
singlestep on the current task and the timeline has the preceding mark
cached, the adapter reports a synthetic singlestep-complete SIGTRAP stop,
answers every subsequent get_regs from the stored mark's registers, exits
the loop on the first non-get_regs request, and performs exactly one real
seek_to_mark, to the final mark, iff at least one lazy reverse step was
taken (no step: the timeline, the request and the stream pass through
untouched). -/
theorem claim_C6_lazy_reverse_fast_path :
    (∀ (env : Env) (t : TaskState) (tl : Timeline) (req : GdbRequest)
       (reqs : List GdbRequest),
      isLazySinglestepReq t req = false →
      tryLazyReverseSinglesteps env t tl req reqs = noLazyOut tl req reqs) ∧
    (∀ (env : Env) (t : TaskState) (tl : Timeline) (req : GdbRequest)
       (reqs : List GdbRequest),
      isLazySinglestepReq t req = true →
      tl.prevCache tl.currentPoint t.recTid = none →
      tryLazyReverseSinglesteps env t tl req reqs = noLazyOut tl req reqs) ∧
    (∀ (env : Env) (t : TaskState) (tl : Timeline) (req : GdbRequest)
       (reqs : List GdbRequest),
      (tryLazyReverseSinglesteps env t tl req reqs).steps = 0 →
      tryLazyReverseSinglesteps env t tl req reqs = noLazyOut tl req reqs) ∧
    (∀ (env : Env) (t : TaskState) (tl : Timeline) (req : GdbRequest)
       (reqs : List GdbRequest),
      (tryLazyReverseSinglesteps env t tl req reqs).blocked = false →
      (tryLazyReverseSinglesteps env t tl req reqs).steps ≠ 0 →
      (tryLazyReverseSinglesteps env t tl req reqs).seeks =
        [(tryLazyReverseSinglesteps env t tl req reqs).nowMark] ∧
      (tryLazyReverseSinglesteps env t tl req reqs).timeline =
        seekToMark tl (tryLazyReverseSinglesteps env t tl req reqs).nowMark) ∧
    (∀ (env : Env) (t : TaskState) (tl : Timeline) (req : GdbRequest)
       (reqs : List GdbRequest) (prev k : Nat) (tg : GdbThreadId)
       (other : GdbRequest) (rest : List GdbRequest),
      isLazySinglestepReq t req = true →
      tl.prevCache tl.currentPoint t.recTid = some prev →
      tl.prevCache prev t.recTid = none →
      reqs = List.replicate k (GdbRequest.getRegs tg) ++ other :: rest →
      isGetRegs (clearSuppress other) = false →
      isLazySinglestepReq t (clearSuppress other) = false →
      tryLazyReverseSinglesteps env t tl req reqs =
        { req := clearSuppress other, rest := rest,
          replies := Reply.notifyStop t.tgid t.recTid 5 0 ::
            List.replicate k (markRegsReply tl prev),
          timeline := seekToMark tl prev, seeks := [prev], steps := 1,
          nowMark := prev, blocked := false }) := by
  refine ⟨?_, ?_, ?_, ?_, ?_⟩
  · intro env t tl req reqs h
    rw [tryLazyReverseSinglesteps, h]
    simp
  · intro env t tl req reqs h hc
    rw [tryLazyReverseSinglesteps, h]
    simp only [if_true, hc]
  · intro env t tl req reqs hs
    by_cases h : isLazySinglestepReq t req
    · rw [tryLazyReverseSinglesteps, h] at hs ⊢
      simp only [if_true] at hs ⊢
      cases hc : tl.prevCache tl.currentPoint t.recTid with
      | none => rfl
      | some prev =>
        rw [hc] at hs
        have hs2 : (lazyDrain env t tl prev 1
            ((maybeNotifyStop env.reverseExecution (lazyBreakStatus t)).toList)
            reqs).steps = 0 := hs
        have hge := lazyDrain_steps_ge reqs env t tl prev 1
          ((maybeNotifyStop env.reverseExecution (lazyBreakStatus t)).toList)
        omega
    · rw [tryLazyReverseSinglesteps] at hs ⊢
      simp only [h, Bool.false_eq_true, if_false] at hs ⊢
  · intro env t tl req reqs hb hs
    by_cases h : isLazySinglestepReq t req
    · rw [tryLazyReverseSinglesteps, h] at hb hs ⊢
      simp only [if_true] at hb hs ⊢
      cases hc : tl.prevCache tl.currentPoint t.recTid with
      | none =>
        rw [hc] at hs
        exact absurd rfl hs
      | some prev =>
        rw [hc] at hb
        exact lazyDrain_seek_done reqs env t tl prev 1
          ((maybeNotifyStop env.reverseExecution (lazyBreakStatus t)).toList) hb
    · rw [tryLazyReverseSinglesteps] at hs ⊢
      simp only [h, Bool.false_eq_true, if_false] at hs
      exact absurd rfl hs
  · intro env t tl req reqs prev k tg other rest h hc hcp hreqs h1 h2
    subst hreqs
    rw [tryLazyReverseSinglesteps, h]
    simp only [if_true, hc]
    rw [lazyDrain_getRegs_run k env t tl prev 1
      ((maybeNotifyStop env.reverseExecution (lazyBreakStatus t)).toList) tg other rest h1 h2]
    rw [lazyNotifyEq]
    rfl

/-! ### C2: diversion lifecycle -/

/-- C2: the diversion starts at refcount 1 (first conjunct); read_siginfo
increments the count and replies zeroed siginfo bytes of the requested
length (second); write_siginfo decrements and replies ack (third); a resume
arriving at refcount 0 ends the diversion and is handed back as the last
unhandled request (fourth), while a resume at nonzero refcount keeps the
diversion alive: backward resumes reply an immediate SIGTRAP stop and loop
(fifth), forward resumes run diversion_step and either end the diversion
with the none sentinel on exit (sixth) or notify and loop (seventh); and the
canonical request loop returns the request the diversion did not handle to
its caller for processing (eighth). -/
theorem claim_C2_diversion_refcount_protocol :
    (∀ (env : Env) (srv : ServerCore) (replaySess : Session) (tTid : Int)
       (reqs : List GdbRequest),
      divert env srv replaySess tTid reqs =
        divertRun env
          (if srv.timeline.isRunning then
            { srv with timeline := env.applyBreakpointsAndWatchpoints srv.timeline }
          else srv)
          (cloneDiversion replaySess) tTid 1 reqs) ∧
    (∀ (env : Env) (srv : ServerCore) (sess : Session) (tTid : Int) (rc : Nat)
       (tg : GdbThreadId) (len : Nat) (rest : List GdbRequest),
      divertRun env srv sess tTid rc (GdbRequest.readSiginfo tg len :: rest) =
        prependDivertReplies [Reply.readSiginfo (List.replicate len 0)]
          (divertRun env srv sess tTid (rc + 1) rest)) ∧
    (∀ (env : Env) (srv : ServerCore) (sess : Session) (tTid : Int) (rc : Nat)
       (tg : GdbThreadId) (rest : List GdbRequest),
      divertRun env srv sess tTid (rc + 1) (GdbRequest.writeSiginfo tg :: rest) =
        prependDivertReplies [Reply.writeSiginfo]
          (divertRun env srv sess tTid rc rest)) ∧
    (∀ (env : Env) (srv : ServerCore) (sess : Session) (tTid : Int)
       (dir : RunDir) (actions : List GdbContAction) (sup : Bool)
       (rest : List GdbRequest),
      divertRun env srv sess tTid 0 (GdbRequest.cont dir actions sup :: rest) =
        DivertOut.done srv sess (GdbRequest.cont dir actions false) rest []) ∧
    (∀ (env : Env) (srv : ServerCore) (sess : Session) (t : TaskState) (tTid : Int)
       (rc : Nat) (actions : List GdbContAction) (sup : Bool)
       (rest : List GdbRequest),
      sess.findTask tTid = some t →
      divertRun env srv sess tTid (rc + 1)
          (GdbRequest.cont RunDir.backward actions sup :: rest) =
        prependDivertReplies [Reply.notifyStop t.tgid t.recTid 5 0]
          (divertRun env srv sess tTid (rc + 1) rest)) ∧
    (∀ (env : Env) (srv : ServerCore) (sess : Session) (t : TaskState) (tTid : Int)
       (rc : Nat) (actions : List GdbContAction) (sup : Bool)
       (rest : List GdbRequest),
      sess.findTask tTid = some t →
      (env.diversionStep sess tTid (computeRunCommand t actions).1
          (computeRunCommand t actions).2).exited = true →
      divertRun env srv sess tTid (rc + 1)
          (GdbRequest.cont RunDir.forward actions sup :: rest) =
        DivertOut.done srv
          (env.diversionStep sess tTid (computeRunCommand t actions).1
            (computeRunCommand t actions).2).sess
          GdbRequest.noneReq rest []) ∧
    (∀ (env : Env) (srv : ServerCore) (sess : Session) (t : TaskState) (tTid : Int)
       (rc : Nat) (actions : List GdbContAction) (sup : Bool)
       (rest : List GdbRequest),
      sess.findTask tTid = some t →
      (env.diversionStep sess tTid (computeRunCommand t actions).1
          (computeRunCommand t actions).2).exited = false →
      divertRun env srv sess tTid (rc + 1)
          (GdbRequest.cont RunDir.forward actions sup :: rest) =
        prependDivertReplies
          (maybeNotifyStop env.reverseExecution
            (env.diversionStep sess tTid (computeRunCommand t actions).1
              (computeRunCommand t actions).2).breakStatus).toList
          (divertRun env srv
            (env.diversionStep sess tTid (computeRunCommand t actions).1
              (computeRunCommand t actions).2).sess tTid (rc + 1) rest)) ∧
    (∀ (env : Env) (fuel : Nat) (srv srv2 : ServerCore) (sess2 : Session)
       (tid : Int) (t : TaskState) (state : ReportState) (tg : GdbThreadId)
       (len : Nat) (rest rest2 : List GdbRequest) (dir : RunDir)
       (actions : List GdbContAction) (reps : List Reply),
      srv.timeline.isRunning = false →
      srv.tlSession.findTask tid = some t →
      divert env srv srv.tlSession t.recTid rest =
        DivertOut.done srv2 sess2 (GdbRequest.cont dir actions false) rest2 reps →
      srv2.tlSession.findTask tid = some t →
      env.traceInstructionsUpToEvent srv2.tlSession.currentFrameTime = false →
      processDR env (fuel + 1) srv (some tid) state
          (GdbRequest.readSiginfo tg len :: rest) =
        PDROut.returned srv2 (some tid) (GdbRequest.cont dir actions false) rest2
          (Reply.readSiginfo (List.replicate len 0) :: reps)) := by
  refine ⟨fun _ _ _ _ _ => rfl, fun _ _ _ _ _ _ _ _ => rfl,
    fun _ _ _ _ _ _ _ => rfl, fun _ _ _ _ _ _ _ _ => rfl, ?_, ?_, ?_, ?_⟩
  · intro env srv sess t tTid rc actions sup rest hft
    rw [divertRun]
    simp only [clearSuppress, hft, Option.elim]
    rfl
  · intro env srv sess t tTid rc actions sup rest hft hex
    rw [divertRun]
    simp only [clearSuppress, hft, Option.elim]
    simp only [Nat.succ_ne_zero, if_false, hex, if_true]
    rfl
  · intro env srv sess t tTid rc actions sup rest hft hex
    rw [divertRun]
    simp only [clearSuppress, hft, Option.elim]
    simp only [Nat.succ_ne_zero, if_false, hex]
    rfl
  · intro env fuel srv srv2 sess2 tid t state tg len rest rest2 dir actions reps
      hrun hft hdiv hft2 htr
    rw [processDR]
    simp only [clearSuppress, hrun, Bool.false_eq_true, if_false, hft, hdiv, hft2,
      maybeSinglestepForEvent, htr]
    simp [prependPDRReplies]

def lazyReqFix : GdbRequest :=
  GdbRequest.cont RunDir.backward [⟨ActionKind.actionStep, ⟨10, 10⟩, 0⟩] false

theorem claim_C6_lazy_reverse_fast_path_witness :
    isLazySinglestepReq taskFix lazyReqFix = true ∧
    tlFix.prevCache tlFix.currentPoint taskFix.recTid = some 99 ∧
    tlFix.prevCache 99 taskFix.recTid = none ∧
    isGetRegs (clearSuppress GdbRequest.detach) = false ∧
    isLazySinglestepReq taskFix (clearSuppress GdbRequest.detach) = false ∧
    tryLazyReverseSinglesteps envFix taskFix tlFix lazyReqFix
        (List.replicate 2 (GdbRequest.getRegs ⟨0, 0⟩) ++ GdbRequest.detach :: []) =
      { req := clearSuppress GdbRequest.detach, rest := [],
        replies := Reply.notifyStop taskFix.tgid taskFix.recTid 5 0 ::
          List.replicate 2 (markRegsReply tlFix 99),
        timeline := seekToMark tlFix 99, seeks := [99], steps := 1,
        nowMark := 99, blocked := false } :=
  ⟨rfl, rfl, rfl, rfl, rfl,
   claim_C6_lazy_reverse_fast_path.2.2.2.2 envFix taskFix tlFix lazyReqFix
     (List.replicate 2 (GdbRequest.getRegs ⟨0, 0⟩) ++ GdbRequest.detach :: [])
     99 2 ⟨0, 0⟩ GdbRequest.detach [] rfl rfl rfl rfl rfl rfl⟩

theorem claim_C2_diversion_refcount_protocol_witness :
    srvFix.timeline.isRunning = false ∧
    srvFix.tlSession.findTask 10 = some taskFix ∧
    divert envFix srvFix srvFix.tlSession taskFix.recTid
        [GdbRequest.writeSiginfo ⟨0, 0⟩, GdbRequest.cont RunDir.forward [] false] =
      DivertOut.done srvFix (cloneDiversion sessFix)
        (GdbRequest.cont RunDir.forward [] false) [] [Reply.writeSiginfo] ∧
    processDR envFix 6 srvFix (some 10) ReportState.reportNormal
        [GdbRequest.readSiginfo ⟨0, 0⟩ 16, GdbRequest.writeSiginfo ⟨0, 0⟩,
         GdbRequest.cont RunDir.forward [] false] =
      PDROut.returned srvFix (some 10) (GdbRequest.cont RunDir.forward [] false) []
        (Reply.readSiginfo (List.replicate 16 0) :: [Reply.writeSiginfo]) :=
  ⟨rfl, rfl, rfl,
   claim_C2_diversion_refcount_protocol.2.2.2.2.2.2.2 envFix 5 srvFix srvFix
     (cloneDiversion sessFix) 10 taskFix ReportState.reportNormal ⟨0, 0⟩ 16
     [GdbRequest.writeSiginfo ⟨0, 0⟩, GdbRequest.cont RunDir.forward [] false] []
     RunDir.forward [] [Reply.writeSiginfo] rfl rfl rfl rfl rfl⟩

/-! ### C9: end-of-trace protocol -/

/-- C9: after end-of-trace the adapter notifies the exit code and processes
requests with report_state = THREADS_DEAD (under which the thread list
reply is empty); of the requests handed back by the request loop only detach
(stop debugging) and restart (restart the session and continue debugging)
are accepted, and any other handed-back request, in particular a
resume, is a fatal error. -/
theorem claim_C9_exited_state_protocol :
    (∀ (env : Env) (srv : ServerCore) (reqs : List GdbRequest),
      handleExitedState env srv none reqs =
        ExitedOut.fault
          "Replay exited before we detected the death of the last debuggee thread") ∧
    (∀ (env : Env) (srv : ServerCore) (tid : Int) (reqs : List GdbRequest)
       (srv2 : ServerCore) (t2 : Option Int) (req : GdbRequest)
       (rest : List GdbRequest) (reps : List Reply),
      processDR env (reqs.length + 1) srv (some tid) ReportState.threadsDead reqs =
        PDROut.returned srv2 t2 req rest reps →
      (req.isResumeRequest = true →
        handleExitedState env srv (some tid) reqs =
          ExitedOut.fault "Received continue request after end-of-trace.") ∧
      (req = GdbRequest.detach →
        handleExitedState env srv (some tid) reqs =
          ExitedOut.stopDebugging srv2 (Reply.notifyExitCode 0 :: reps)) ∧
      (∀ (k : RestartKind) (p : Nat) (s : String) (srv3 : ServerCore)
         (reps2 : List Reply),
        req = GdbRequest.restartReq k p s →
        restartSession env srv2 req = RestartOut.ok srv3 reps2 →
        handleExitedState env srv (some tid) reqs =
          ExitedOut.continueDebugging srv3
            (Reply.notifyExitCode 0 :: (reps ++ reps2))) ∧
      ((∀ (k : RestartKind) (p : Nat) (s : String),
          req ≠ GdbRequest.restartReq k p s) →
        req ≠ GdbRequest.detach →
        handleExitedState env srv (some tid) reqs =
          ExitedOut.fault "Received continue request after end-of-trace.")) ∧
    (∀ (env : Env) (srv : ServerCore) (sess : Session) (tOpt : Option TaskState),
      dispatchDebuggerRequest env srv sess tOpt GdbRequest.getThreadList
          ReportState.threadsDead =
        DispatchResult.ok srv sess [Reply.getThreadList []]) := by
  refine ⟨fun _ _ _ => rfl, ?_, fun _ _ _ _ => rfl⟩
  intro env srv tid reqs srv2 t2 req rest reps h
  refine ⟨?_, ?_, ?_, ?_⟩
  · intro hres
    cases req <;> simp [GdbRequest.isResumeRequest] at hres
    simp [handleExitedState, h]
  · intro hreq
    subst hreq
    simp [handleExitedState, h]
  · intro k p s srv3 reps2 hreq hrs
    subst hreq
    simp [handleExitedState, h, hrs]
  · intro hnr hnd
    cases req <;>
      first
        | exact absurd rfl hnd
        | exact absurd rfl (hnr _ _ _)
        | simp [handleExitedState, h]

theorem claim_C9_exited_state_protocol_witness :
    processDR envFix ([GdbRequest.detach].length + 1) srvFix (some 10)
        ReportState.threadsDead [GdbRequest.detach] =
      PDROut.returned srvFix (some 10) GdbRequest.detach [] [Reply.detachReply] ∧
    handleExitedState envFix srvFix (some 10) [GdbRequest.detach] =
      ExitedOut.stopDebugging srvFix (Reply.notifyExitCode 0 :: [Reply.detachReply]) :=
  ⟨rfl,
   (claim_C9_exited_state_protocol.2.1 envFix srvFix 10 [GdbRequest.detach] srvFix
     (some 10) GdbRequest.detach [] [Reply.detachReply] rfl).2.1 rfl⟩

theorem claim_C4_restart_mark_shared_amended_witness :
    cpFind srvC4.checkpoints 5 = some 3 ∧
    srvC4.debuggerRestartMark = some 7 ∧
    (∃ S,
      restartSession envFix srvC4
          (GdbRequest.restartReq RestartKind.fromCheckpoint 5 "5") =
        RestartOut.ok S [] ∧
      S.debuggerRestartMark = some 3 ∧
      S.checkpoints = srvC4.checkpoints ∧
      cpFind S.checkpoints 5 = some 3 ∧
      S.timeline.currentPoint = 3 ∧
      S.timeline.liveExplicit =
        (if srvC4.timeline.canAdd then [srvC4.timeline.nextMarkId] else []) ++
          srvC4.timeline.liveExplicit.erase 7 ∧
      S.timeline.breakpoints = [] ∧
      S.timeline.watchpoints = []) :=
  ⟨rfl, rfl,
   claim_C4_restart_mark_shared_amended envFix srvC4 5 "5" 3 7 rfl rfl⟩

end RRGdb
